import Mathlib

/-!
Verification of the ad-generation workflow implemented in `src/index.tsx`
(a single-page browser form that composes a prompt from a book title,
description and platform preset, sends one request to an external
image-generation service, and parses the reply for the first inline image).

The JavaScript source is shallowly embedded: the component state becomes an
explicit record, the `generateAd` handler becomes a function from the state
and the (already transported) service reply to an updated state together with
a flag recording whether the network call was reached, and the prompt
template literal becomes a concatenation of its literal chunks.  Transport
failures of the network call itself are outside the embedded fragment: the
reply is passed in as an argument.
-/

namespace AdCreator

/-- Platform options mapping to aspect ratios (`PLATFORMS` entries in the
source).  The source names the third field `ratio`; it is called `aspect`
here. -/
structure Platform where
  id : String
  name : String
  aspect : String
  icon : String
deriving DecidableEq

/-- First entry of `PLATFORMS`. -/
def storyPlatform : Platform :=
  { id := "story", name := "Instagram/Facebook Story", aspect := "9:16", icon := "fa-instagram" }

/-- Second entry of `PLATFORMS`. -/
def feedPlatform : Platform :=
  { id := "feed", name := "Social Media Feed", aspect := "1:1", icon := "fa-square-share-nodes" }

/-- Third entry of `PLATFORMS`. -/
def landscapePlatform : Platform :=
  { id := "landscape", name := "Google Display / Web", aspect := "16:9", icon := "fa-google" }

/-- The fixed preset set `PLATFORMS` of the source. -/
def PLATFORMS : List Platform := [storyPlatform, feedPlatform, landscapePlatform]

/-- Literal chunk of the prompt template before `${platform.name}`. -/
def promptChunk1 : String :=
  "Create a stunning, high-quality static advertisement image optimized for "

/-- Literal chunk of the prompt template between `${platform.name}` and
`${title}` (note the trailing space after the period on the first line of the
template literal, and the six-space indentation carried by every
continuation line). -/
def promptChunk2 : String :=
  ". \n      \n      Subject:\n      The centerpiece is the provided book cover for a book titled \""

/-- Literal chunk of the prompt template between `${title}` and the
description segment. -/
def promptChunk3 : String :=
  "\".\n      \n      Context & Vibe:\n      "

/-- The fixed default descriptive sentence used when the description is
empty. -/
def defaultVibe : String :=
  "The vibe should be serene, professional, and inspiring, suitable for a high-quality journal or planner."

/-- The description segment of the template:
`description ? \x60The ad should convey this message/vibe: ${description}.\x60 : "The vibe should be ..."`
(an empty JavaScript string is falsy, so the default sentence is used exactly
when the description is empty). -/
def descSegment (description : String) : String :=
  if description = "" then defaultVibe
  else "The ad should convey this message/vibe: " ++ description ++ "."

/-- Literal tail of the prompt template after the description segment. -/
def promptChunk4 : String :=
  "\n      \n      Composition:\n      - Place the book naturally in a lifestyle setting (e.g., on a minimalist wooden desk with coffee, in a cozy reading nook, or held by a person in a soft-focus background).\n      - The lighting should be soft, golden-hour, or studio quality.\n      - Make it look like a premium social media ad for the brand \x27Innerflue\x27.\n      - Do not add text overlays, just the visual photography.\n      - Ensure the book cover provided is clearly visible and integrated realistically (lighting, shadows, perspective)."

/-- The composed instruction string (`const prompt = ...` in `generateAd`),
a pure function of the selected platform preset, the title and the
description. -/
def composePrompt (p : Platform) (title description : String) : String :=
  promptChunk1 ++ p.name ++ promptChunk2 ++ title ++ promptChunk3 ++
    descSegment description ++ promptChunk4

/-- `containsSubstr s t` means `t` occurs verbatim as a contiguous substring
of `s`. -/
def containsSubstr (s t : String) : Prop :=
  ∃ l r : String, s = l ++ t ++ r

lemma strAppend_assoc (a b c : String) : a ++ b ++ c = a ++ (b ++ c) := by
  apply String.ext
  simp [String.data_append]

/-- Claim C1: for every preset in the fixed preset set, every title string,
and every non-empty description string, the composed instruction string
contains the title verbatim, the description text verbatim, and the preset
display name verbatim as substrings. -/
theorem claim1_prompt_contains_inputs (p : Platform) (title description : String)
    (hp : p ∈ PLATFORMS) (hd : description ≠ "") :
    containsSubstr (composePrompt p title description) title ∧
    containsSubstr (composePrompt p title description) description ∧
    containsSubstr (composePrompt p title description) p.name := by
  refine ⟨⟨promptChunk1 ++ p.name ++ promptChunk2,
           promptChunk3 ++ descSegment description ++ promptChunk4, ?_⟩,
          ⟨promptChunk1 ++ p.name ++ promptChunk2 ++ title ++ promptChunk3 ++
             "The ad should convey this message/vibe: ",
           "." ++ promptChunk4, ?_⟩,
          ⟨promptChunk1,
           promptChunk2 ++ title ++ promptChunk3 ++ descSegment description ++ promptChunk4, ?_⟩⟩
  · simp [composePrompt, strAppend_assoc]
  · simp [composePrompt, descSegment, hd, strAppend_assoc]
  · simp [composePrompt, strAppend_assoc]

/-- Witness for C1 at the first preset, a concrete title and a concrete
non-empty description. -/
theorem claim1_witness :
    containsSubstr (composePrompt storyPlatform "My Journal" "A cozy companion") "My Journal" ∧
    containsSubstr (composePrompt storyPlatform "My Journal" "A cozy companion") "A cozy companion" ∧
    containsSubstr (composePrompt storyPlatform "My Journal" "A cozy companion") storyPlatform.name :=
  claim1_prompt_contains_inputs storyPlatform "My Journal" "A cozy companion"
    (by decide) (by decide)

/-- Claim C2: for every preset and every title, when the description is the
empty string the composed instruction string contains the fixed default
descriptive sentence. -/
theorem claim2_default_vibe (p : Platform) (title : String) (hp : p ∈ PLATFORMS) :
    containsSubstr (composePrompt p title "") defaultVibe := by
  refine ⟨promptChunk1 ++ p.name ++ promptChunk2 ++ title ++ promptChunk3, promptChunk4, ?_⟩
  simp [composePrompt, descSegment, strAppend_assoc]

/-- Witness for C2 at the second preset and a concrete title. -/
theorem claim2_witness :
    containsSubstr (composePrompt feedPlatform "My Journal" "") defaultVibe :=
  claim2_default_vibe feedPlatform "My Journal" (by decide)

/-- Claim C9: the composed instruction is a deterministic pure function of
(preset, title, description): any two invocations with equal inputs produce
equal instruction strings. -/
theorem claim9_prompt_deterministic (p₁ p₂ : Platform) (t₁ t₂ d₁ d₂ : String)
    (hp : p₁ = p₂) (ht : t₁ = t₂) (hd : d₁ = d₂) :
    composePrompt p₁ t₁ d₁ = composePrompt p₂ t₂ d₂ := by
  rw [hp, ht, hd]

/-- Witness for C9 at concrete equal inputs. -/
theorem claim9_witness :
    composePrompt storyPlatform "T" "D" = composePrompt storyPlatform "T" "D" :=
  claim9_prompt_deterministic storyPlatform storyPlatform "T" "T" "D" "D" rfl rfl rfl

/-- The uploaded cover file, as it enters the request after
`fileToGenerativePart`: its base64-encoded bytes and its media type. -/
structure ImageFile where
  base64Data : String
  mimeType : String
deriving DecidableEq

/-- Inline binary image data carried by a reply fragment
(`part.inlineData`). -/
structure InlineData where
  data : String
  mimeType : String
deriving DecidableEq

/-- One content fragment of the service reply: optional text, optional
inline image data (the source tests `if (part.inlineData)`). -/
structure RespPart where
  text : Option String := none
  inlineData : Option InlineData := none
deriving DecidableEq

/-- `candidate.content`, holding the optional fragment list. -/
structure Content where
  parts : Option (List RespPart) := none
deriving DecidableEq

/-- One reply candidate. -/
structure Candidate where
  content : Option Content := none
deriving DecidableEq

/-- The service reply (`response` in the source). -/
structure GenResponse where
  candidates : Option (List Candidate) := none
deriving DecidableEq

/-- The optional-chaining access `response.candidates?.[0]?.content?.parts`. -/
def firstParts (r : GenResponse) : Option (List RespPart) :=
  match r.candidates with
  | none => none
  | some cs =>
    match cs.head? with
    | none => none
    | some c =>
      match c.content with
      | none => none
      | some ct => ct.parts

/-- The scan `for (const part of parts) if (part.inlineData) ... break`:
the data of the first fragment carrying inline image data, if any. -/
def findInlineData : List RespPart → Option String
  | [] => none
  | p :: rest =>
    match p.inlineData with
    | some d => some d.data
    | none => findInlineData rest

/-- The component state relevant to the workflow (`useState` hooks of `App`;
the presentation-only `imagePreview` string is omitted). -/
structure AppState where
  apiKey : String
  title : String
  description : String
  platform : Platform
  imageFile : Option ImageFile
  generatedImage : Option String
  loading : Bool
  error : String
deriving DecidableEq

/-- The missing-input error message of `generateAd`. -/
def missingInputMsg : String := "Please provide a book cover and a title."

/-- The missing-credential error message of `generateAd`. -/
def missingKeyMsg : String := "API Key is missing."

/-- The message of the error thrown when no reply fragment carries inline
image data, surfaced through the catch block as `err.message`. -/
def noImageMsg : String := "No image generated. The model might have returned text instead."

/-- The `generateAd` handler.  `r` is the reply the network call would
deliver (transport assumed successful, as in the claims considered here).
The returned flag records whether the network call was reached.
Faithful to the source: `!imageFile || !title` guards first, then
`!apiKey`; only then are `loading`, `error` and `generatedImage`
cleared, the request sent, and the reply scanned for the first inline
image; absence of one raises the error caught and stored in `error`;
`loading` is reset in the `finally` block. -/
def generateAd (s : AppState) (r : GenResponse) : AppState × Bool :=
  if s.imageFile = none ∨ s.title = "" then
    ({ s with error := missingInputMsg }, false)
  else if s.apiKey = "" then
    ({ s with error := missingKeyMsg }, false)
  else
    let s₁ : AppState := { s with loading := true, error := "", generatedImage := none }
    match (firstParts r).bind findInlineData with
    | some d =>
      ({ s₁ with generatedImage := some ("data:image/png;base64," ++ d), loading := false }, true)
    | none =>
      ({ s₁ with error := noImageMsg, loading := false }, true)

/-- The Reset button's action, `setGeneratedImage(null)`. -/
def resetGenerated (s : AppState) : AppState := { s with generatedImage := none }

/-- Idle workflow state: no artifact, no error, no request in flight. -/
def isIdle (s : AppState) : Prop :=
  s.generatedImage = none ∧ s.error = "" ∧ s.loading = false

/-- An empty service reply (every optional field absent). -/
def emptyResponse : GenResponse := {}

/-- Claim C3: when no image file has been supplied or the title is empty,
`generateAd` only stores the missing-input error message (the rest of the
state is unchanged) and the network call is not reached. -/
theorem claim3_missing_input (s : AppState) (r : GenResponse)
    (h : s.imageFile = none ∨ s.title = "") :
    (generateAd s r).1 = { s with error := missingInputMsg } ∧
    (generateAd s r).2 = false := by
  unfold generateAd
  rw [if_pos h]
  exact ⟨rfl, rfl⟩

/-- Witness for C3 at a concrete state with no image and an empty title. -/
theorem claim3_witness :
    (generateAd { apiKey := "k", title := "", description := "", platform := storyPlatform,
                  imageFile := none, generatedImage := none, loading := false, error := "" }
       emptyResponse).1 =
      { apiKey := "k", title := "", description := "", platform := storyPlatform,
        imageFile := none, generatedImage := none, loading := false,
        error := missingInputMsg } ∧
    (generateAd { apiKey := "k", title := "", description := "", platform := storyPlatform,
                  imageFile := none, generatedImage := none, loading := false, error := "" }
       emptyResponse).2 = false :=
  claim3_missing_input _ emptyResponse (Or.inl rfl)

/-- Claim C4: when an image is present and the title is non-empty but the
credential string is empty, `generateAd` only stores the missing-credential
error message and the network call is not reached. -/
theorem claim4_missing_credential (s : AppState) (r : GenResponse)
    (h₁ : s.imageFile ≠ none) (h₂ : s.title ≠ "") (h₃ : s.apiKey = "") :
    (generateAd s r).1 = { s with error := missingKeyMsg } ∧
    (generateAd s r).2 = false := by
  unfold generateAd
  rw [if_neg (not_or.mpr ⟨h₁, h₂⟩), if_pos h₃]
  exact ⟨rfl, rfl⟩

/-- A concrete uploaded file. -/
def sampleFile : ImageFile := { base64Data := "Zm9v", mimeType := "image/png" }

/-- Witness for C4 at a concrete state with an image, a title and an empty
credential. -/
theorem claim4_witness :
    (generateAd { apiKey := "", title := "My Book", description := "", platform := storyPlatform,
                  imageFile := some sampleFile, generatedImage := none, loading := false,
                  error := "" } emptyResponse).1 =
      { apiKey := "", title := "My Book", description := "", platform := storyPlatform,
        imageFile := some sampleFile, generatedImage := none, loading := false,
        error := missingKeyMsg } ∧
    (generateAd { apiKey := "", title := "My Book", description := "", platform := storyPlatform,
                  imageFile := some sampleFile, generatedImage := none, loading := false,
                  error := "" } emptyResponse).2 = false :=
  claim4_missing_credential _ emptyResponse (by decide) (by decide) rfl

/-- Claim C10: the missing-input check is evaluated before the credential
check: when the inputs are invalid and the credential is also missing, the
stored error is the missing-input message, not the missing-credential one,
and no network call is reached. -/
theorem claim10_input_check_first (s : AppState) (r : GenResponse)
    (h : s.imageFile = none ∨ s.title = "") (hk : s.apiKey = "") :
    (generateAd s r).1.error = missingInputMsg ∧
    (generateAd s r).1.error ≠ missingKeyMsg ∧
    (generateAd s r).2 = false := by
  unfold generateAd
  rw [if_pos h]
  refine ⟨rfl, ?_, rfl⟩
  show missingInputMsg ≠ missingKeyMsg
  decide

/-- Witness for C10 at a concrete state missing both the image and the
credential. -/
theorem claim10_witness :
    (generateAd { apiKey := "", title := "My Book", description := "", platform := storyPlatform,
                  imageFile := none, generatedImage := none, loading := false, error := "" }
       emptyResponse).1.error = missingInputMsg ∧
    (generateAd { apiKey := "", title := "My Book", description := "", platform := storyPlatform,
                  imageFile := none, generatedImage := none, loading := false, error := "" }
       emptyResponse).1.error ≠ missingKeyMsg ∧
    (generateAd { apiKey := "", title := "My Book", description := "", platform := storyPlatform,
                  imageFile := none, generatedImage := none, loading := false, error := "" }
       emptyResponse).2 = false :=
  claim10_input_check_first _ emptyResponse (Or.inl rfl) rfl

lemma findInlineData_append (pre post : List RespPart) (p : RespPart) (d : InlineData)
    (hpre : ∀ q ∈ pre, q.inlineData = none) (hd : p.inlineData = some d) :
    findInlineData (pre ++ p :: post) = some d.data := by
  induction pre with
  | nil => simp [findInlineData, hd]
  | cons q rest ih =>
    have hq : q.inlineData = none := hpre q (by simp)
    simpa [findInlineData, hq] using ih fun x hx => hpre x (by simp [hx])

lemma findInlineData_eq_none (ps : List RespPart)
    (h : ∀ q ∈ ps, q.inlineData = none) : findInlineData ps = none := by
  induction ps with
  | nil => rfl
  | cons q rest ih =>
    have hq : q.inlineData = none := h q (by simp)
    simpa [findInlineData, hq] using ih fun x hx => h x (by simp [hx])

lemma generateAd_valid (s : AppState) (r : GenResponse)
    (h₁ : s.imageFile ≠ none) (h₂ : s.title ≠ "") (h₃ : s.apiKey ≠ "") :
    generateAd s r =
      match (firstParts r).bind findInlineData with
      | some d =>
        ({ s with loading := false, error := "",
                  generatedImage := some ("data:image/png;base64," ++ d) }, true)
      | none =>
        ({ s with loading := false, error := noImageMsg, generatedImage := none }, true) := by
  unfold generateAd
  rw [if_neg (not_or.mpr ⟨h₁, h₂⟩), if_neg h₃]

/-- Claim C5: for valid inputs and a reply whose fragment list contains an
inline-image fragment, the resolver stores the artifact built from the data
of the first such fragment (earlier non-image fragments are skipped, later
fragments are never reached), leaves no error, and the subsequent reset
discards the artifact and returns the workflow to the idle state. -/
theorem claim5_first_inline_image (s : AppState) (r : GenResponse)
    (pre post : List RespPart) (p : RespPart) (d : InlineData)
    (h₁ : s.imageFile ≠ none) (h₂ : s.title ≠ "") (h₃ : s.apiKey ≠ "")
    (hp : firstParts r = some (pre ++ p :: post))
    (hpre : ∀ q ∈ pre, q.inlineData = none)
    (hd : p.inlineData = some d) :
    (generateAd s r).1.generatedImage = some ("data:image/png;base64," ++ d.data) ∧
    (generateAd s r).1.error = "" ∧
    isIdle (resetGenerated (generateAd s r).1) := by
  have hfind : (firstParts r).bind findInlineData = some d.data := by
    rw [hp]
    exact findInlineData_append pre post p d hpre hd
  rw [generateAd_valid s r h₁ h₂ h₃, hfind]
  exact ⟨rfl, rfl, rfl, rfl, rfl⟩

/-- A concrete inline-image payload. -/
def sampleInline : InlineData := { data := "QUJD", mimeType := "image/png" }

/-- A reply fragment carrying inline image data. -/
def samplePart : RespPart := { inlineData := some sampleInline }

/-- A purely textual reply fragment. -/
def textPart : RespPart := { text := some "I cannot generate that image." }

/-- A reply whose fragment list has a textual fragment followed by an
inline-image fragment. -/
def imgResponse : GenResponse :=
  { candidates := some [{ content := some { parts := some [textPart, samplePart] } }] }

/-- A state in which all three pre-flight checks pass. -/
def validState : AppState :=
  { apiKey := "k", title := "My Book", description := "", platform := storyPlatform,
    imageFile := some sampleFile, generatedImage := none, loading := false, error := "" }

/-- Witness for C5: the artifact comes from the second fragment, the first
inline-image one, of a concrete reply. -/
theorem claim5_witness :
    (generateAd validState imgResponse).1.generatedImage =
      some ("data:image/png;base64," ++ sampleInline.data) ∧
    (generateAd validState imgResponse).1.error = "" ∧
    isIdle (resetGenerated (generateAd validState imgResponse).1) :=
  claim5_first_inline_image validState imgResponse [textPart] [] samplePart sampleInline
    (by decide) (by decide) (by decide) rfl (by decide) rfl

/-- No fragment of the reply carries inline image data (in particular when
the fragment list is absent altogether). -/
def noInlineImage (r : GenResponse) : Bool :=
  match firstParts r with
  | none => true
  | some ps => ps.all fun p => decide (p.inlineData = none)

/-- Claim C6: for valid inputs and a reply none of whose fragments carries
inline image data, the resolver stores the no-image error message, produces
no artifact, and the attempt ends with the loading flag cleared (the failed
state, with the message reported to the user). -/
theorem claim6_no_image_error (s : AppState) (r : GenResponse)
    (h₁ : s.imageFile ≠ none) (h₂ : s.title ≠ "") (h₃ : s.apiKey ≠ "")
    (h : noInlineImage r = true) :
    (generateAd s r).1.error = noImageMsg ∧
    (generateAd s r).1.generatedImage = none ∧
    (generateAd s r).1.loading = false := by
  have hfind : (firstParts r).bind findInlineData = none := by
    unfold noInlineImage at h
    cases hfp : firstParts r with
    | none => rfl
    | some ps =>
      rw [hfp] at h
      show findInlineData ps = none
      apply findInlineData_eq_none
      intro q hq
      exact of_decide_eq_true (List.all_eq_true.mp h q hq)
  rw [generateAd_valid s r h₁ h₂ h₃, hfind]
  exact ⟨rfl, rfl, rfl⟩

/-- A reply whose only fragment is textual. -/
def textResponse : GenResponse :=
  { candidates := some [{ content := some { parts := some [textPart] } }] }

/-- Witness for C6 at a concrete purely-textual reply. -/
theorem claim6_witness :
    (generateAd validState textResponse).1.error = noImageMsg ∧
    (generateAd validState textResponse).1.generatedImage = none ∧
    (generateAd validState textResponse).1.loading = false :=
  claim6_no_image_error validState textResponse (by decide) (by decide) (by decide) (by decide)

/-- User interactions that mutate the workflow state: the controlled
inputs' change handlers, the platform buttons, the file picker, the
Generate button (carrying the reply the network would deliver) and the
Reset button. -/
inductive Event where
  | setTitle (t : String)
  | setDescription (d : String)
  | selectPlatform (p : Platform)
  | uploadImage (f : ImageFile)
  | clickGenerate (r : GenResponse)
  | clickReset

/-- One UI step.  The Generate button is disabled while `loading` is set or
no image file is present (`disabled={loading || !imageFile}`), so
`clickGenerate` is a no-op in those states. -/
def step (s : AppState) : Event → AppState
  | Event.setTitle t => { s with title := t }
  | Event.setDescription d => { s with description := d }
  | Event.selectPlatform p => { s with platform := p }
  | Event.uploadImage f => { s with imageFile := some f }
  | Event.clickGenerate r =>
    if s.loading = false ∧ s.imageFile ≠ none then (generateAd s r).1 else s
  | Event.clickReset => resetGenerated s

/-- Run a sequence of UI events from a state. -/
def runEvents (s : AppState) (es : List Event) : AppState := es.foldl step s

/-- The initial component state (all `useState` initialisers), with the
credential taken from the environment. -/
def initState (key : String) : AppState :=
  { apiKey := key, title := "", description := "", platform := storyPlatform,
    imageFile := none, generatedImage := none, loading := false, error := "" }

/-- A concrete interaction sequence: upload a cover, type a title, generate
successfully, clear the title, and click Generate again. -/
def bothTrace : List Event :=
  [Event.uploadImage sampleFile, Event.setTitle "My Book",
   Event.clickGenerate imgResponse, Event.setTitle "",
   Event.clickGenerate imgResponse]

/-- Counterexample to C7: after the trace `bothTrace` the second Generate
click resolves as a pre-flight validation failure that stores the
missing-input error message without discarding the previously generated
artifact, so the reached state holds a complete image artifact and a
non-empty error message at the same time. -/
theorem claim7_counterexample :
    (runEvents (initState "k") bothTrace).generatedImage =
      some "data:image/png;base64,QUJD" ∧
    (runEvents (initState "k") bothTrace).error = missingInputMsg := by
  constructor <;> rfl

/-- Claim C7 as amended: when a generation attempt passes pre-flight
validation, the resolved state holds exactly one of a complete image
artifact (with an empty error message) or a non-empty error message (with
no artifact); pre-flight validation failures instead store the error
message while leaving any prior artifact in place. -/
theorem claim7_amended_exclusive (s : AppState) (r : GenResponse)
    (h₁ : s.imageFile ≠ none) (h₂ : s.title ≠ "") (h₃ : s.apiKey ≠ "") :
    ((generateAd s r).1.generatedImage ≠ none ∧ (generateAd s r).1.error = "") ∨
    ((generateAd s r).1.generatedImage = none ∧ (generateAd s r).1.error ≠ "") := by
  rw [generateAd_valid s r h₁ h₂ h₃]
  cases hfind : (firstParts r).bind findInlineData with
  | some d =>
    left
    exact ⟨by simp, rfl⟩
  | none =>
    right
    refine ⟨rfl, ?_⟩
    show noImageMsg ≠ ""
    decide

/-- Witness for the amended C7 at a concrete valid state and reply. -/
theorem claim7_witness :
    ((generateAd validState imgResponse).1.generatedImage ≠ none ∧
     (generateAd validState imgResponse).1.error = "") ∨
    ((generateAd validState imgResponse).1.generatedImage = none ∧
     (generateAd validState imgResponse).1.error ≠ "") :=
  claim7_amended_exclusive validState imgResponse (by decide) (by decide) (by decide)

/-- Character class `\s` of JavaScript regular expressions (whitespace
code points). -/
def isJsSpace (c : Char) : Bool :=
  c.toNat == 9 || c.toNat == 10 || c.toNat == 11 || c.toNat == 12 ||
  c.toNat == 13 || c.toNat == 32 || c.toNat == 160 || c.toNat == 5760 ||
  (Nat.ble 8192 c.toNat && Nat.ble c.toNat 8202) || c.toNat == 8232 ||
  c.toNat == 8233 || c.toNat == 8239 || c.toNat == 8287 ||
  c.toNat == 12288 || c.toNat == 65279

/-- The global replacement `replace(/\s+/g, "-")`: each maximal run of
whitespace characters becomes a single hyphen.  The flag records whether the
previous character belonged to a whitespace run. -/
def collapseWsAux : Bool → List Char → List Char
  | _, [] => []
  | prevWs, c :: rest =>
    if isJsSpace c then
      if prevWs then collapseWsAux true rest
      else '-' :: collapseWsAux true rest
    else c :: collapseWsAux false rest

/-- `title.replace(/\s+/g, "-")`. -/
def replaceWsRuns (s : String) : String := String.mk (collapseWsAux false s.data)

/-- `toLowerCase()`, restricted to its ASCII action (the claims do not
involve non-ASCII letters). -/
def jsToLower (s : String) : String := String.mk (s.data.map Char.toLower)

/-- The suggested download filename of the result region:
`innerflue-ad-${title.replace(/\s+/g, "-").toLowerCase()}.png`. -/
def downloadFilename (title : String) : String :=
  "innerflue-ad-" ++ jsToLower (replaceWsRuns title) ++ ".png"

/-- Per-character reading of the claim's derivation: a whitespace character
becomes a hyphen, any other character is lower-cased. -/
def specSlugChar (c : Char) : Char := if isJsSpace c then '-' else c.toLower

/-- The download filename as the claim literally describes it: the title
lower-cased with whitespace (character by character) replaced by hyphens,
between the fixed prefix and the `.png` extension. -/
def specFilename (title : String) : String :=
  "innerflue-ad-" ++ String.mk (title.data.map specSlugChar) ++ ".png"

/-- No two adjacent characters are both whitespace. -/
def noConsecWs : List Char → Bool
  | [] => true
  | [_] => true
  | a :: b :: rest => (!(isJsSpace a && isJsSpace b)) && noConsecWs (b :: rest)

lemma toLower_hyphen : Char.toLower '-' = '-' := by decide

lemma noConsecWs_tail (c : Char) (l : List Char)
    (h : noConsecWs (c :: l) = true) : noConsecWs l = true := by
  cases l with
  | nil => rfl
  | cons b rest =>
    simp only [noConsecWs, Bool.and_eq_true] at h
    exact h.2

lemma collapseWsAux_eq_map (l : List Char) (h : noConsecWs l = true) :
    collapseWsAux false l = l.map (fun c => if isJsSpace c then '-' else c) ∧
    (∀ b r2, l = b :: r2 → isJsSpace b = false →
      collapseWsAux true l = l.map (fun c => if isJsSpace c then '-' else c)) := by
  induction l with
  | nil => exact ⟨rfl, fun b r2 hbr _ => by simp at hbr⟩
  | cons c rest ih =>
    obtain ⟨ih1, ih2⟩ := ih (noConsecWs_tail c rest h)
    constructor
    · cases hc : isJsSpace c with
      | false => simp [collapseWsAux, hc, ih1]
      | true =>
        have hrest : collapseWsAux true rest =
            rest.map (fun x => if isJsSpace x then '-' else x) := by
          cases rest with
          | nil => rfl
          | cons b r2 =>
            have hb : isJsSpace b = false := by
              have h' : (!(isJsSpace c && isJsSpace b)) = true := by
                simp only [noConsecWs, Bool.and_eq_true] at h
                exact h.1
              rw [hc] at h'
              simpa using h'
            exact ih2 b r2 rfl hb
        simp [collapseWsAux, hc, hrest]
    · intro b r2 hbr hb
      injection hbr with hb1 hb2
      subst hb1
      subst hb2
      simp [collapseWsAux, hb, ih1]

/-- Counterexample to C8: for the title `"a  b"` (two consecutive spaces)
the code collapses the whitespace run to a single hyphen, while the title
lower-cased with each whitespace character replaced by a hyphen would keep
two. -/
theorem claim8_counterexample :
    downloadFilename "a  b" = "innerflue-ad-a-b.png" ∧
    specFilename "a  b" = "innerflue-ad-a--b.png" ∧
    downloadFilename "a  b" ≠ specFilename "a  b" := by
  refine ⟨rfl, rfl, ?_⟩
  decide

/-- Claim C8 as amended: the suggested download filename ends with the
`.png` extension and is derived from the title by replacing each maximal
run of whitespace with a single hyphen and lower-casing; for titles without
consecutive whitespace this coincides with the claim's character-by-character
replacement of whitespace by hyphens. -/
theorem claim8_amended_filename (title : String) :
    (∃ pre, downloadFilename title = pre ++ ".png") ∧
    (noConsecWs title.data = true → downloadFilename title = specFilename title) := by
  constructor
  · exact ⟨"innerflue-ad-" ++ jsToLower (replaceWsRuns title), rfl⟩
  · intro h
    unfold downloadFilename specFilename jsToLower replaceWsRuns
    congr 2
    rw [(collapseWsAux_eq_map title.data h).1, List.map_map]
    have hfun : (Char.toLower ∘ fun c => if isJsSpace c then '-' else c) = specSlugChar := by
      funext c
      cases hc : isJsSpace c with
      | false => simp [Function.comp, specSlugChar, hc]
      | true => simp [Function.comp, specSlugChar, hc, toLower_hyphen]
    rw [hfun]

/-- Witness for the amended C8 at a concrete single-spaced title. -/
theorem claim8_witness :
    downloadFilename "My Book" = specFilename "My Book" ∧
    (∃ pre, downloadFilename "My Book" = pre ++ ".png") :=
  ⟨(claim8_amended_filename "My Book").2 (by decide),
   (claim8_amended_filename "My Book").1⟩

end AdCreator
